import Mathlib

/-!
# RFD900 configuration tool — verification of the command/response protocol

Shallow embedding of the RFD900 CLI repository (`modem_client.py`,
`rfd-config.py`, `s_registers.py`, `configure-rfd.py`, `congigure-rfd.py`).

The serial link is modelled as a pure stream of already-decoded,
already-stripped lines (the lines the Python code would obtain from
`readline().decode().strip()` before the per-command timeout elapses);
raised Python exceptions become `Except.error` values.
-/

namespace RFD900

/-! ## modem_client.py — ModemClient.send

The read loop of `ModemClient.send` (lines 42–57): every incoming line equal
to the request is skipped (`continue`), any other line is appended, and the
loop stops at the first `OK`/`ERROR` line.  `collect request stream` is the
list `response` the loop has built when it stops (or when the stream — i.e.
the data arriving before the timeout — is exhausted). -/
def collect (command : String) : List String → List String
  | [] => []
  | l :: rest =>
    if l = command then collect command rest
    else if l = "OK" ∨ l = "ERROR" then [l]
    else l :: collect command rest

/-- Python `'\n'.join(lines)`. -/
def joinLines (ls : List String) : String := String.intercalate "\n" ls

/-- Lines 59–72 of `ModemClient.send`: if the collected response is nonempty
and its last line is `OK`, return the joined prior lines; if the last line is
`ERROR`, raise `ATRuntimeError` carrying the joined prior lines (modelled as
`Except.error`); otherwise return the joined collected lines; an empty
collection yields the empty string. -/
def send (command : String) (stream : List String) : Except String String :=
  let response := collect command stream
  match response.getLast? with
  | none => Except.ok ""
  | some last =>
    if last = "OK" then Except.ok (joinLines response.dropLast)
    else if last = "ERROR" then Except.error (joinLines response.dropLast)
    else Except.ok (joinLines response)

/-! ## Theorems for claims C1–C3 -/

/-- Helper: `collect` never keeps a line equal to the request. -/
theorem collect_not_mem_command (command : String) :
    ∀ stream : List String, command ∉ collect command stream := by
  intro stream
  induction stream with
  | nil => simp [collect]
  | cons l rest ih =>
    by_cases hl : l = command
    · simpa [collect, hl] using ih
    · by_cases ht : l = "OK" ∨ l = "ERROR"
      · simp only [collect, if_neg hl, if_pos ht, List.mem_singleton]
        exact fun h => hl h.symm
      · simp only [collect, if_neg hl, if_neg ht, List.mem_cons]
        rintro (h | h)
        · exact hl h.symm
        · exact ih h

/-- Helper: every line kept by `collect` came from the incoming stream. -/
theorem collect_subset (command : String) :
    ∀ stream : List String, ∀ l ∈ collect command stream, l ∈ stream := by
  intro stream
  induction stream with
  | nil => simp [collect]
  | cons x rest ih =>
    intro l hl
    by_cases hx : x = command
    · exact List.mem_cons_of_mem x (ih l (by simpa [collect, hx] using hl))
    · by_cases ht : x = "OK" ∨ x = "ERROR"
      · simp only [collect, if_neg hx, if_pos ht, List.mem_singleton] at hl
        simp [hl]
      · simp only [collect, if_neg hx, if_neg ht, List.mem_cons] at hl
        rcases hl with hl | hl
        · simp [hl]
        · exact List.mem_cons_of_mem x (ih l hl)

instance {ε α : Type} [DecidableEq ε] [DecidableEq α] : DecidableEq (Except ε α) :=
  fun a b =>
  match a, b with
  | .ok x, .ok y =>
    if h : x = y then isTrue (by rw [h]) else isFalse (by simp [h])
  | .error x, .error y =>
    if h : x = y then isTrue (by rw [h]) else isFalse (by simp [h])
  | .ok _, .error _ => isFalse (by simp)
  | .error _, .ok _ => isFalse (by simp)

/-- C1 (counterexample): for request `ATS3?` and stream
`["ATS3?", "25", "ATS3?", "OK"]`, the second line textually identical to the
request is also dropped by `ModemClient.send`: the result is `"25"`, not the
`"25\nATS3?"` the claim (keep any later echo line) would require. -/
theorem c1_counterexample :
    send "ATS3?" ["ATS3?", "25", "ATS3?", "OK"] = Except.ok (joinLines ["25"]) ∧
    joinLines ["25"] ≠ joinLines ["25", "ATS3?"] := by
  refine ⟨by decide, by decide⟩

/-- C1 (amended): the read loop of `ModemClient.send` discards every line
textually identical to the request, not only the first: no echo line is
ever kept in the collected response, and an echo line at the head of the
stream leaves the collected response unchanged. -/
theorem c1_every_echo_discarded (command : String) (stream : List String) :
    command ∉ collect command stream ∧
    collect command (command :: stream) = collect command stream := by
  exact ⟨collect_not_mem_command command stream, by simp [collect]⟩

/-- C1 witness: the amended statement at the doubly-echoed concrete
stream. -/
theorem c1_witness :
    "ATS3?" ∉ collect "ATS3?" ["ATS3?", "25", "ATS3?", "OK"] ∧
    collect "ATS3?" ("ATS3?" :: ["ATS3?", "25", "ATS3?", "OK"]) =
      collect "ATS3?" ["ATS3?", "25", "ATS3?", "OK"] :=
  c1_every_echo_discarded "ATS3?" ["ATS3?", "25", "ATS3?", "OK"]

/-- C2: if the collected response ends with `OK`, the exchange succeeds and
returns the joined prior collected lines (terminator excluded); if it ends
with `ERROR`, the exchange fails (`ATRuntimeError`) carrying the joined
prior lines as diagnostic text. -/
theorem c2_terminator_semantics (command : String) (stream pre : List String) :
    (collect command stream = pre ++ ["OK"] →
      send command stream = Except.ok (joinLines pre)) ∧
    (collect command stream = pre ++ ["ERROR"] →
      send command stream = Except.error (joinLines pre)) := by
  constructor <;> intro h <;>
    simp [send, h, List.getLast?_concat, List.dropLast_concat]

/-- C2 witness: concrete OK-terminated and ERROR-terminated exchanges. -/
theorem c2_witness :
    send "ATS3?" ["ATS3?", "25", "OK"] = Except.ok (joinLines ["25"]) ∧
    send "AT&F" ["ERROR"] = Except.error (joinLines []) :=
  ⟨(c2_terminator_semantics "ATS3?" ["ATS3?", "25", "OK"] ["25"]).1 (by decide),
   (c2_terminator_semantics "AT&F" ["ERROR"] []).2 (by decide)⟩

/-- C3 (counterexample): an exchange that times out with no terminator
(stream `["25"]`) returns exactly the same value as a successful
OK-terminated exchange (stream `["25", "OK"]`): there is no `Unterminated`
status a caller could use to tell the two apart. -/
theorem c3_counterexample :
    send "ATS3?" ["25"] = send "ATS3?" ["25", "OK"] ∧
    "OK" ∉ (["25"] : List String) ∧ "ERROR" ∉ (["25"] : List String) := by
  refine ⟨by decide, by decide, by decide⟩

/-- C3 (amended): when no `OK`/`ERROR` line arrives before the per-command
timeout, `ModemClient.send` raises no exception and returns the joined
accumulated (echo-filtered) lines as an ordinary success value — no
`Unterminated` status is attached to it. -/
theorem c3_unterminated_returns_lines (command : String) (stream : List String)
    (h1 : "OK" ∉ stream) (h2 : "ERROR" ∉ stream) :
    send command stream = Except.ok (joinLines (collect command stream)) := by
  unfold send
  cases hlast : (collect command stream).getLast? with
  | none =>
    have : collect command stream = [] := List.getLast?_eq_none_iff.mp hlast
    simp [this, joinLines, String.intercalate]
  | some last =>
    have hmem : last ∈ stream :=
      collect_subset command stream last (List.mem_of_getLast?_eq_some hlast)
    have hOK : last ≠ "OK" := fun h => h1 (h ▸ hmem)
    have hERR : last ≠ "ERROR" := fun h => h2 (h ▸ hmem)
    simp [hlast, hOK, hERR]

/-- C3 witness: the amended statement at the concrete unterminated stream
`["25"]`. -/
theorem c3_witness :
    send "ATS3?" ["25"] = Except.ok (joinLines (collect "ATS3?" ["25"])) :=
  c3_unterminated_returns_lines "ATS3?" ["25"] (by decide) (by decide)

/-! ## s_registers.py — the SRegisters enum -/

inductive SRegisters
  | FORMAT
  | SERIAL_SPEED
  | AIR_SPEED
  | NETID
  | TXPOWER
  | ECC
  | MAVLINK
  | OP_RESEND
  | MIN_FREQ
  | MAX_FREQ
  | NUM_CHANNELS
  | DUTY_CYCLE
  | LBT_RSSI
  | MANCHESTER
  | RTSCTS
  | NODEID
  | NODEDESTINATION
  | SYNCANY
  | NODECOUNT
deriving DecidableEq

/-- Python enum member value: the register number. -/
def SRegisters.value : SRegisters → Nat
  | .FORMAT => 0
  | .SERIAL_SPEED => 1
  | .AIR_SPEED => 2
  | .NETID => 3
  | .TXPOWER => 4
  | .ECC => 5
  | .MAVLINK => 6
  | .OP_RESEND => 7
  | .MIN_FREQ => 8
  | .MAX_FREQ => 9
  | .NUM_CHANNELS => 10
  | .DUTY_CYCLE => 11
  | .LBT_RSSI => 12
  | .MANCHESTER => 13
  | .RTSCTS => 14
  | .NODEID => 15
  | .NODEDESTINATION => 16
  | .SYNCANY => 17
  | .NODECOUNT => 18

/-- Python enum member name. -/
def SRegisters.name : SRegisters → String
  | .FORMAT => "FORMAT"
  | .SERIAL_SPEED => "SERIAL_SPEED"
  | .AIR_SPEED => "AIR_SPEED"
  | .NETID => "NETID"
  | .TXPOWER => "TXPOWER"
  | .ECC => "ECC"
  | .MAVLINK => "MAVLINK"
  | .OP_RESEND => "OP_RESEND"
  | .MIN_FREQ => "MIN_FREQ"
  | .MAX_FREQ => "MAX_FREQ"
  | .NUM_CHANNELS => "NUM_CHANNELS"
  | .DUTY_CYCLE => "DUTY_CYCLE"
  | .LBT_RSSI => "LBT_RSSI"
  | .MANCHESTER => "MANCHESTER"
  | .RTSCTS => "RTSCTS"
  | .NODEID => "NODEID"
  | .NODEDESTINATION => "NODEDESTINATION"
  | .SYNCANY => "SYNCANY"
  | .NODECOUNT => "NODECOUNT"

/-- Iteration order of the Python enum. -/
def SRegisters.all : List SRegisters :=
  [.FORMAT, .SERIAL_SPEED, .AIR_SPEED, .NETID, .TXPOWER, .ECC, .MAVLINK,
   .OP_RESEND, .MIN_FREQ, .MAX_FREQ, .NUM_CHANNELS, .DUTY_CYCLE, .LBT_RSSI,
   .MANCHESTER, .RTSCTS, .NODEID, .NODEDESTINATION, .SYNCANY, .NODECOUNT]

/-- Python `SRegisters[name]` guarded by `name in [r.name for r in SRegisters]`
(rfd-config.py lines 159–163). -/
def SRegisters.fromName? (s : String) : Option SRegisters :=
  SRegisters.all.find? (fun r => r.name == s)

/-! ## rfd-config.py — parameter catalog and the configuration shell -/

structure ParameterConstraints where
  min_val : Int
  max_val : Int
  default_val : Int
  description : String
  requires_matching : Bool
deriving DecidableEq

/-- The `PARAMETER_CONSTRAINTS` table of rfd-config.py (lines 24–44). -/
def PARAMETER_CONSTRAINTS : SRegisters → ParameterConstraints
  | .FORMAT => ⟨0, 0, 0, "EEPROM version (should not be changed)", false⟩
  | .SERIAL_SPEED => ⟨2, 115, 57, "Serial speed (2=2400 ... 115=115200)", false⟩
  | .AIR_SPEED => ⟨2, 250, 64, "Air data rate (2-250 kbps)", true⟩
  | .NETID => ⟨0, 499, 25, "Network ID", true⟩
  | .TXPOWER => ⟨0, 30, 20, "Transmit power in dBm", false⟩
  | .ECC => ⟨0, 1, 1, "Error correcting code (0=disabled, 1=enabled)", true⟩
  | .MAVLINK => ⟨0, 1, 1, "MAVLink framing (0=disabled, 1=enabled)", false⟩
  | .OP_RESEND => ⟨0, 1, 1, "Opportunistic resend (0=disabled, 1=enabled)", false⟩
  | .MIN_FREQ => ⟨902000, 927000, 915000, "Min frequency in KHz", true⟩
  | .MAX_FREQ => ⟨903000, 928000, 928000, "Max frequency in KHz", true⟩
  | .NUM_CHANNELS => ⟨5, 50, 50, "Number of frequency hopping channels", true⟩
  | .DUTY_CYCLE => ⟨10, 100, 100, "Transmit duty cycle %", false⟩
  | .LBT_RSSI => ⟨0, 1, 0, "Listen before talk threshold (do not change)", true⟩
  | .MANCHESTER => ⟨0, 1, 0, "Manchester encoding (do not change)", true⟩
  | .RTSCTS => ⟨0, 1, 0, "RTS/CTS flow control (do not change)", false⟩
  | .NODEID => ⟨0, 29, 2, "Node ID (0=base node)", false⟩
  | .NODEDESTINATION => ⟨0, 65535, 65535, "Remote node ID (65535=broadcast)", false⟩
  | .SYNCANY => ⟨0, 1, 0, "Allow sending without base node sync", false⟩
  | .NODECOUNT => ⟨2, 30, 3, "Total number of nodes in network", true⟩

/-- A modem is modelled as a map from a request line to the stream of
response lines that arrive for it before the per-command timeout. -/
def Modem : Type := String → List String

/-- Python whitespace, as stripped by `str.strip()`. -/
def pyIsSpace (c : Char) : Bool :=
  c = ' ' || c = '\t' || c = '\n' || c = '\r' || c = '\x0B' || c = '\x0C'

/-- Python `str.strip()` on a character list. -/
def trimChars (s : List Char) : List Char :=
  ((s.dropWhile pyIsSpace).reverse.dropWhile pyIsSpace).reverse

/-- Python `str.strip()`. -/
def stripStr (s : String) : String := String.mk (trimChars s.data)

/-- Python `str.split(sep)` on one separator character: splits at every
occurrence, keeping empty pieces. -/
def splitLinesAux : List Char → List (List Char)
  | [] => [[]]
  | c :: rest =>
    if c = '\n' then [] :: splitLinesAux rest
    else
      match splitLinesAux rest with
      | [] => [[c]]
      | l :: ls => (c :: l) :: ls

/-- Python `response.split('\n')`. -/
def splitNl (s : String) : List String := (splitLinesAux s.data).map String.mk

/-- The `get_modem_response` helper of rfd-config.py (lines 290–309): send
the command, return `""` on any exception or empty result, otherwise strip
and drop blank lines, drop a leading echo of the command, and rejoin. -/
def get_modem_response (modem : Modem) (cmd : String) : String :=
  match send cmd (modem cmd) with
  | Except.error _ => ""
  | Except.ok s =>
    if s = "" then ""
    else
      let lines := ((splitNl s).map stripStr).filter (fun l => l != "")
      let lines := if lines.head? = some cmd then lines.tail else lines
      joinLines lines

/-- The write request `ATS{index}={value}` built by `do_set` (line 171). -/
def setCmd (reg : SRegisters) (value : Int) : String :=
  "ATS" ++ toString reg.value ++ "=" ++ toString value

/-- The read-back request `ATS{index}?` built by `do_set` (line 177). -/
def queryCmd (reg : SRegisters) : String :=
  "ATS" ++ toString reg.value ++ "?"

/-- What `RFDShell.do_set` prints. -/
inductive ShellOut
  | errInvalidParam (name : String)
  | errRange (name : String) (lo hi : Int)
  | setOk (name : String) (value : Int)
  | matchingNote
  | errExc (msg : String)
deriving DecidableEq

structure DoSetResult where
  requests : List String
  outputs : List ShellOut
deriving DecidableEq

/-- The `RFDShell.do_set` handler (rfd-config.py lines 150–186), with the
argument already split into an upper-cased name and a parsed integer value.
Unknown names and out-of-range values are rejected before any request is
issued; otherwise `ATS{index}={value}`, `AT&W` and `ATS{index}?` are sent in
order (an exception from a send is caught and printed, aborting the
sequence), and a nonempty read-back triggers the confirmation message. The
read-back value is never compared against the requested value. -/
def do_set (modem : Modem) (register : String) (value : Int) : DoSetResult :=
  match SRegisters.fromName? register with
  | none => ⟨[], [ShellOut.errInvalidParam register]⟩
  | some reg =>
    let c := PARAMETER_CONSTRAINTS reg
    if value < c.min_val ∨ value > c.max_val then
      ⟨[], [ShellOut.errRange register c.min_val c.max_val]⟩
    else
      match send (setCmd reg value) (modem (setCmd reg value)) with
      | Except.error e => ⟨[setCmd reg value], [ShellOut.errExc e]⟩
      | Except.ok _ =>
        match send "AT&W" (modem "AT&W") with
        | Except.error e => ⟨[setCmd reg value, "AT&W"], [ShellOut.errExc e]⟩
        | Except.ok _ =>
          let resp := get_modem_response modem (queryCmd reg)
          ⟨[setCmd reg value, "AT&W", queryCmd reg],
            if resp != "" then
              ShellOut.setOk register value ::
                (if c.requires_matching then [ShellOut.matchingNote] else [])
            else []⟩

/-! ## Theorems for claims C9, C7, C6 -/

/-- C9: the Parameter Catalog is sound: the register indices of the enum, in
declaration order, are exactly `0..18` (hence unique and contiguous), the
enumeration is exhaustive, and `min_val ≤ default_val ≤ max_val` holds for
every catalog entry. -/
theorem c9_catalog_invariants :
    SRegisters.all.map SRegisters.value = List.range 19 ∧
    (∀ r : SRegisters, r ∈ SRegisters.all) ∧
    ∀ r ∈ SRegisters.all,
      (PARAMETER_CONSTRAINTS r).min_val ≤ (PARAMETER_CONSTRAINTS r).default_val ∧
      (PARAMETER_CONSTRAINTS r).default_val ≤ (PARAMETER_CONSTRAINTS r).max_val := by
  refine ⟨by decide, fun r => by cases r <;> decide, by decide⟩

/-- C9 witness: the bounds invariant instantiated at the `NETID` entry. -/
theorem c9_witness :
    (PARAMETER_CONSTRAINTS SRegisters.NETID).min_val ≤
      (PARAMETER_CONSTRAINTS SRegisters.NETID).default_val ∧
    (PARAMETER_CONSTRAINTS SRegisters.NETID).default_val ≤
      (PARAMETER_CONSTRAINTS SRegisters.NETID).max_val :=
  c9_catalog_invariants.2.2 SRegisters.NETID (by decide)

/-- C7: `do_set` rejects an unknown parameter name before any request is
issued; it rejects a known name with a value outside the inclusive catalog
range, citing the bounds, before any request is issued; and for a known name
with an in-range value the first request issued is `ATS{index}={value}` with
the resolved register index. -/
theorem c7_validation (modem : Modem) (register : String) (value : Int) :
    (SRegisters.fromName? register = none →
      do_set modem register value = ⟨[], [ShellOut.errInvalidParam register]⟩) ∧
    (∀ reg, SRegisters.fromName? register = some reg →
      (value < (PARAMETER_CONSTRAINTS reg).min_val ∨
        value > (PARAMETER_CONSTRAINTS reg).max_val) →
      do_set modem register value =
        ⟨[], [ShellOut.errRange register (PARAMETER_CONSTRAINTS reg).min_val
               (PARAMETER_CONSTRAINTS reg).max_val]⟩) ∧
    (∀ reg, SRegisters.fromName? register = some reg →
      ¬(value < (PARAMETER_CONSTRAINTS reg).min_val ∨
         value > (PARAMETER_CONSTRAINTS reg).max_val) →
      (do_set modem register value).requests.head? = some (setCmd reg value)) := by
  refine ⟨fun h => by simp [do_set, h], fun reg h hout => by simp [do_set, h, hout],
    fun reg h hin => ?_⟩
  simp only [do_set, h]
  rw [if_neg hin]
  cases send (setCmd reg value) (modem (setCmd reg value)) with
  | error e => rfl
  | ok _ =>
    cases send "AT&W" (modem "AT&W") with
    | error e => rfl
    | ok _ => rfl

/-- C7 witness: an unknown name, an out-of-range `NETID` write, and an
in-range `NETID` write, each against a silent modem. -/
theorem c7_witness :
    do_set (fun _ => []) "BOGUS" 1 = ⟨[], [ShellOut.errInvalidParam "BOGUS"]⟩ ∧
    do_set (fun _ => []) "NETID" 500 =
      ⟨[], [ShellOut.errRange "NETID" (PARAMETER_CONSTRAINTS SRegisters.NETID).min_val
             (PARAMETER_CONSTRAINTS SRegisters.NETID).max_val]⟩ ∧
    (do_set (fun _ => []) "NETID" 5).requests.head? =
      some (setCmd SRegisters.NETID 5) :=
  ⟨(c7_validation (fun _ => []) "BOGUS" 1).1 (by decide),
   (c7_validation (fun _ => []) "NETID" 500).2.1 SRegisters.NETID (by decide) (by decide),
   (c7_validation (fun _ => []) "NETID" 5).2.2 SRegisters.NETID (by decide) (by decide)⟩

/-- A modem that accepts the NETID write and persist and reads back `5`
(matching the requested value). -/
def mAck5 : Modem := fun r =>
  if r = "ATS3=5" then ["OK"]
  else if r = "AT&W" then ["OK"]
  else if r = "ATS3?" then ["ATS3?", "5", "OK"]
  else []

/-- A modem identical to `mAck5` except that the read-back value is `7`,
differing from the requested `5`. -/
def mAck7 : Modem := fun r =>
  if r = "ATS3=5" then ["OK"]
  else if r = "AT&W" then ["OK"]
  else if r = "ATS3?" then ["ATS3?", "7", "OK"]
  else []

/-- C6: setting `NETID` to `5` does issue exactly the three requests
`ATS3=5`, `AT&W`, `ATS3?` in order, but `do_set` never compares the
read-back value with the requested one: its entire observable behaviour on a
modem reading back `7` is identical to that on a modem reading back `5` — no
verification warning is produced on mismatch, contrary to the code comment
`Verify the change`. -/
theorem c6_no_verification_warning :
    (do_set mAck5 "NETID" 5).requests = ["ATS3=5", "AT&W", "ATS3?"] ∧
    do_set mAck7 "NETID" 5 = do_set mAck5 "NETID" 5 := by
  refine ⟨by decide, by decide⟩

/-! ## modem_client.py — enter_command_mode, with serial-handle accounting

Each attempt of `enter_command_mode` (lines 82–130) opens the port inside a
`with serial.Serial(...) as ser:` block, probes with `AT`, and — success or
failure — closes the handle when the block exits; on success the handle is
stored in `self.serial` *before* the block exits, so the stored handle is a
closed one.  Handles are modelled by a `World` of integer descriptors. -/

/-- Byte-string check for Python `tok in resp`. -/
def startsWithTok : List Char → List Char → Bool
  | [], _ => true
  | _ :: _, [] => false
  | a :: as, b :: bs => a = b && startsWithTok as bs

/-- Python substring containment `tok in resp`. -/
def containsSub (tok : List Char) : List Char → Bool
  | [] => tok.isEmpty
  | c :: rest => startsWithTok tok (c :: rest) || containsSub tok rest

/-- The probe success test of line 115:
`b'OK' in response or b'RFD SiK' in response`. -/
def probeOkB (resp : List Char) : Bool :=
  containsSub "OK".toList resp || containsSub "RFD SiK".toList resp

/-- A heap of serial-port handles: `openIds` are the currently open
descriptors, `nextId` the next fresh one. -/
structure World where
  nextId : Nat
  openIds : List Nat
deriving DecidableEq

/-- Opening `serial.Serial(...)` yields a fresh open handle. -/
def World.openH (w : World) : Nat × World :=
  (w.nextId, ⟨w.nextId + 1, w.nextId :: w.openIds⟩)

/-- Closing a handle (the `with`-block exit calls `ser.close()`). -/
def World.closeH (w : World) (i : Nat) : World :=
  ⟨w.nextId, w.openIds.erase i⟩

/-- The `is_open` attribute of a handle. -/
def World.isOpen (w : World) (i : Nat) : Bool := decide (i ∈ w.openIds)

/-- Well-formedness: every open descriptor was allocated. -/
def World.wf (w : World) : Prop := ∀ j ∈ w.openIds, j < w.nextId

/-- Result of `enter_command_mode`: whether it returned `True`, what
`self.serial` holds, the final handle heap, and how many attempts ran. -/
structure EntryResult where
  success : Bool
  stored : Option Nat
  world : World
  attempts : Nat
deriving DecidableEq

/-- The retry loop of `enter_command_mode`: per attempt, open the port, probe
(`resp attempt` are the bytes that arrive before the 1-second probe
deadline), and close the handle on `with`-block exit; on probe success store
the handle in `self.serial` first and return `True`. -/
def entryLoop (resp : Nat → List Char) : Nat → Nat → World → EntryResult
  | 0, _, w => ⟨false, none, w, 0⟩
  | fuel + 1, attempt, w =>
    let i := (World.openH w).1
    let w1 := (World.openH w).2
    if probeOkB (resp attempt) then
      ⟨true, some i, World.closeH w1 i, 1⟩
    else
      let r := entryLoop resp fuel (attempt + 1) (World.closeH w1 i)
      ⟨r.success, r.stored, r.world, r.attempts + 1⟩

/-- `enter_command_mode` with its default budget `max_attempts=3`. -/
def enter_command_mode (resp : Nat → List Char) (w : World) : EntryResult :=
  entryLoop resp 3 0 w

/-- `ModemClient.__init__` (lines 10–17): raises `ATRuntimeError` when
`enter_command_mode` returns `False`, so no client object is produced. -/
def ModemClient.mk? (resp : Nat → List Char) (w : World) :
    Except String (Option Nat × World) :=
  let r := enter_command_mode resp w
  if r.success then Except.ok (r.stored, r.world)
  else Except.error "Failed to enter command mode"

/-- The reopen guard at the top of `ModemClient.send` (lines 22–27): when
`self.serial` is `None` or not open, a fresh port handle is opened. -/
def sendOpenStep (serial : Option Nat) (w : World) : Nat × World :=
  match serial with
  | none => World.openH w
  | some i => if World.isOpen w i then (i, w) else World.openH w

/-! ## Theorems for claims C4 and C10 -/

/-- C4: when the probe never succeeds, `enter_command_mode` runs exactly its
attempt budget of 3 attempts and returns `False`, `ModemClient` construction
fails with the entry error (no usable client), nothing is stored in
`self.serial`, and every handle opened during the failed attempts has been
closed again (the heap of open descriptors is unchanged). -/
theorem c4_entry_retry_budget (resp : Nat → List Char) (w : World)
    (h : ∀ i, i < 3 → probeOkB (resp i) = false) :
    (enter_command_mode resp w).success = false ∧
    (enter_command_mode resp w).attempts = 3 ∧
    (enter_command_mode resp w).stored = none ∧
    (enter_command_mode resp w).world.openIds = w.openIds ∧
    ModemClient.mk? resp w = Except.error "Failed to enter command mode" := by
  have h0 := h 0 (by omega)
  have h1 := h 1 (by omega)
  have h2 := h 2 (by omega)
  simp [enter_command_mode, entryLoop, ModemClient.mk?, World.openH, World.closeH,
    h0, h1, h2]

/-- C4 witness: a transport that never responds, starting from a heap with
no open handles. -/
theorem c4_witness :
    (enter_command_mode (fun _ => []) ⟨0, []⟩).attempts = 3 ∧
    (enter_command_mode (fun _ => []) ⟨0, []⟩).world.openIds = [] ∧
    ModemClient.mk? (fun _ => []) ⟨0, []⟩ =
      Except.error "Failed to enter command mode" := by
  have h := c4_entry_retry_budget (fun _ => []) ⟨0, []⟩ (fun i _ => rfl)
  exact ⟨h.2.1, h.2.2.2.1, h.2.2.2.2⟩

/-- Helper: whatever `entryLoop` stores in `self.serial` is a closed handle
in the final heap. -/
theorem entryLoop_stored_closed (resp : Nat → List Char) :
    ∀ (fuel attempt : Nat) (w : World), World.wf w →
      ∀ i, (entryLoop resp fuel attempt w).stored = some i →
        (entryLoop resp fuel attempt w).world.isOpen i = false := by
  intro fuel
  induction fuel with
  | zero =>
    intro attempt w _ i h
    simp [entryLoop] at h
  | succ n ih =>
    intro attempt w hwf i h
    by_cases hp : probeOkB (resp attempt) = true
    · simp only [entryLoop, hp, if_true] at h ⊢
      simp only [World.openH, World.closeH, List.erase_cons_head] at h ⊢
      have hi : i = w.nextId := by
        simpa using h.symm
      subst hi
      simp only [World.isOpen, decide_eq_false_iff_not]
      exact fun hmem => lt_irrefl _ (hwf _ hmem)
    · have hp2 : probeOkB (resp attempt) = false := by
        simpa using hp
      simp only [entryLoop, hp2, Bool.false_eq_true, if_false] at h ⊢
      have hwf2 : World.wf (World.closeH (World.openH w).2 (World.openH w).1) := by
        intro j hj
        simp only [World.openH, World.closeH, List.erase_cons_head] at hj
        exact Nat.lt_succ_of_lt (hwf j hj)
      exact ih (attempt + 1) _ hwf2 i h

/-- C10: after a successful `enter_command_mode`, the handle stored in
`self.serial` is already closed (its `with` block has exited), and the guard
at the top of `send` therefore opens a fresh port handle: it reopens both
when `self.serial` is a closed handle and when it is `None`. -/
theorem c10_stored_handle_closed (resp : Nat → List Char) (w : World)
    (hwf : World.wf w) (i : Nat)
    (h : (enter_command_mode resp w).stored = some i) :
    (enter_command_mode resp w).world.isOpen i = false ∧
    sendOpenStep (some i) (enter_command_mode resp w).world =
      World.openH (enter_command_mode resp w).world ∧
    ∀ w2 : World, sendOpenStep none w2 = World.openH w2 := by
  have hc : (enter_command_mode resp w).world.isOpen i = false :=
    entryLoop_stored_closed resp 3 0 w hwf i h
  refine ⟨hc, ?_, fun w2 => rfl⟩
  simp [sendOpenStep, hc]

/-- Modem bytes for a probe that succeeds immediately. -/
def respOK : Nat → List Char := fun _ => "OK".toList

/-- C10 witness: construction succeeding on the first attempt from an empty
heap stores handle 0, which is closed, and `send` would reopen. -/
theorem c10_witness :
    (enter_command_mode respOK ⟨0, []⟩).world.isOpen 0 = false ∧
    sendOpenStep (some 0) (enter_command_mode respOK ⟨0, []⟩).world =
      World.openH (enter_command_mode respOK ⟨0, []⟩).world ∧
    ∀ w2 : World, sendOpenStep none w2 = World.openH w2 :=
  c10_stored_handle_closed respOK ⟨0, []⟩
    (fun j hj => absurd hj (List.not_mem_nil j)) 0 (by decide)

/-! ## congigure-rfd.py — send_command and set_netid -/

namespace CongigureRfd

/-- The `send_command` of congigure-rfd.py (lines 7–19): write the command,
read the (stripped) response lines, and return them if any line contains the
expected token as a substring; otherwise raise `ValueError` (modelled as
`Except.error` carrying the command and the response from the message
`Command {command} failed. Response: {response}`). -/
def send_command (resp : List String) (command expected : String) :
    Except (String × List String) (List String) :=
  if resp.any (fun l => containsSub expected.toList l.toList) then Except.ok resp
  else Except.error (command, resp)

/-- What `set_netid` prints on stdout, in order. -/
inductive NetidOut
  | connecting
  | entered
  | respPrint (r : List String)
  | netidSet (v : Int)
  | exited
  | errPrint (command : String) (r : List String)
deriving DecidableEq

/-- The `set_netid` flow of congigure-rfd.py (lines 21–50): enter command
mode, query `ATS3?`, write `ATS3={netid}` (the `AT&W` step is commented out
in the source), then issue `ATO` as the final teardown step.  Every
`send_command` call can raise; the surrounding `try/except` catches the
exception and prints it, so `set_netid` itself always returns. -/
def set_netid (modem : Modem) (netid : Int) : List NetidOut :=
  match send_command (modem "ATS3?") "ATS3?" "OK" with
  | Except.error e =>
    [NetidOut.connecting, NetidOut.entered, NetidOut.errPrint e.1 e.2]
  | Except.ok r1 =>
    match send_command (modem ("ATS3=" ++ toString netid))
        ("ATS3=" ++ toString netid) "OK" with
    | Except.error e =>
      [NetidOut.connecting, NetidOut.entered, NetidOut.respPrint r1,
       NetidOut.errPrint e.1 e.2]
    | Except.ok _ =>
      match send_command (modem "ATO") "ATO" "OK" with
      | Except.error e =>
        [NetidOut.connecting, NetidOut.entered, NetidOut.respPrint r1,
         NetidOut.netidSet netid, NetidOut.errPrint e.1 e.2]
      | Except.ok _ =>
        [NetidOut.connecting, NetidOut.entered, NetidOut.respPrint r1,
         NetidOut.netidSet netid, NetidOut.exited]

end CongigureRfd

/-- The `RFDShell.do_exit` handler of rfd-config.py (lines 207–209): it just
returns `True` to end the command loop; the list of modem requests it issues
is empty (no `ATO` is sent during shell teardown). -/
def RFDShell.do_exit (_arg : String) : Bool × List String := (true, [])

/-- A modem that answers the `ATS3?` query and accepts the `ATS3=5` write
but returns nothing for `ATO` (no well-formed response to the exit step). -/
def mNetid : Modem := fun r =>
  if r = "ATS3?" then ["ATS3?", "25", "OK"]
  else if r = "ATS3=5" then ["OK"]
  else []

/-- Like `mNetid` but also answering `OK` to `ATO`. -/
def mNetidOk : Modem := fun r =>
  if r = "ATS3?" then ["ATS3?", "25", "OK"]
  else if r = "ATS3=5" then ["OK"]
  else if r = "ATO" then ["OK"]
  else []

/-- C8 (counterexample): when the modem returns no well-formed response to
`ATO`, the exit exchange raises `ValueError` (it is not best-effort), the
final `Exited command mode` message is never reached, and the rfd-config
shell teardown (`do_exit`) issues no `ATO` request at all. -/
theorem c8_counterexample :
    CongigureRfd.send_command (mNetid "ATO") "ATO" "OK" =
      Except.error ("ATO", []) ∧
    CongigureRfd.set_netid mNetid 5 =
      [CongigureRfd.NetidOut.connecting, CongigureRfd.NetidOut.entered,
       CongigureRfd.NetidOut.respPrint ["ATS3?", "25", "OK"],
       CongigureRfd.NetidOut.netidSet 5,
       CongigureRfd.NetidOut.errPrint "ATO" []] ∧
    CongigureRfd.NetidOut.exited ∉ CongigureRfd.set_netid mNetid 5 ∧
    (RFDShell.do_exit "").2 = [] := by
  refine ⟨by decide, by decide, by decide, rfl⟩

/-- C8 (amended): in `set_netid`, once the query and write steps have
succeeded, the `ATO` teardown request is issued, but its exchange demands a
response line containing `OK`: with such a line the flow ends with the
`Exited command mode` message; without one the exchange raises `ValueError`,
which the surrounding handler catches — `set_netid` itself returns normally,
ending with the printed error instead of the exit message. -/
theorem c8_exit_not_best_effort (modem : Modem) (netid : Int)
    (h1 : (modem "ATS3?").any
      (fun l => containsSub "OK".toList l.toList) = true)
    (h2 : (modem ("ATS3=" ++ toString netid)).any
      (fun l => containsSub "OK".toList l.toList) = true) :
    ((modem "ATO").any (fun l => containsSub "OK".toList l.toList) = true →
      CongigureRfd.NetidOut.exited ∈ CongigureRfd.set_netid modem netid) ∧
    ((modem "ATO").any (fun l => containsSub "OK".toList l.toList) = false →
      (CongigureRfd.set_netid modem netid).getLast? =
        some (CongigureRfd.NetidOut.errPrint "ATO" (modem "ATO")) ∧
      CongigureRfd.NetidOut.exited ∉ CongigureRfd.set_netid modem netid) := by
  have e1 : CongigureRfd.send_command (modem "ATS3?") "ATS3?" "OK" =
      Except.ok (modem "ATS3?") := by
    unfold CongigureRfd.send_command
    rw [h1]
    exact if_pos rfl
  have e2 : CongigureRfd.send_command (modem ("ATS3=" ++ toString netid))
      ("ATS3=" ++ toString netid) "OK" =
      Except.ok (modem ("ATS3=" ++ toString netid)) := by
    unfold CongigureRfd.send_command
    rw [h2]
    exact if_pos rfl
  constructor
  · intro h3
    have e3 : CongigureRfd.send_command (modem "ATO") "ATO" "OK" =
        Except.ok (modem "ATO") := by
      unfold CongigureRfd.send_command
      rw [h3]
      exact if_pos rfl
    simp [CongigureRfd.set_netid, e1, e2, e3]
  · intro h3
    have e3 : CongigureRfd.send_command (modem "ATO") "ATO" "OK" =
        Except.error ("ATO", modem "ATO") := by
      unfold CongigureRfd.send_command
      rw [h3]
      exact if_neg Bool.false_ne_true
    constructor
    · simp [CongigureRfd.set_netid, e1, e2, e3, List.getLast?, List.getLast]
    · simp [CongigureRfd.set_netid, e1, e2, e3]

/-- C8 witness: the amended statement applied to a modem that answers `OK`
to `ATO` and to one that returns nothing for it. -/
theorem c8_witness :
    CongigureRfd.NetidOut.exited ∈ CongigureRfd.set_netid mNetidOk 5 ∧
    ((CongigureRfd.set_netid mNetid 5).getLast? =
        some (CongigureRfd.NetidOut.errPrint "ATO" (mNetid "ATO")) ∧
      CongigureRfd.NetidOut.exited ∉ CongigureRfd.set_netid mNetid 5) :=
  ⟨(c8_exit_not_best_effort mNetidOk 5 (by decide) (by decide)).1 (by decide),
   (c8_exit_not_best_effort mNetid 5 (by decide) (by decide)).2 (by decide)⟩

/-! ## configure-rfd.py and congigure-rfd.py — timed write traces for
command-mode entry

Time is counted in tenths of a second; writes are instantaneous and
timestamped by the total sleep time elapsed before them. -/

/-- Serial-port events performed by the entry code, in program order. -/
inductive TEv
  | sleep (tenths : Nat)
  | write (bs : List Char)
  | readAll
deriving DecidableEq

/-- Timestamped write events of a trace. -/
def timedWrites : Nat → List TEv → List (Nat × List Char)
  | _, [] => []
  | t, TEv.sleep s :: r => timedWrites (t + s) r
  | t, TEv.write b :: r => (t, b) :: timedWrites t r
  | t, TEv.readAll :: r => timedWrites t r

/-- The write at time `t` has a quiet guard band of `g` on both sides: at
least `g` has elapsed since the port was opened (time 0), and every other
write of the trace lies at least `g` away from `t`. -/
def quietAround (ws : List (Nat × List Char)) (t g : Nat) : Bool :=
  decide (g ≤ t) &&
    ws.all (fun p => p.1 == t || decide (p.1 + g ≤ t) || decide (t + g ≤ p.1))

/-- The port I/O of `enter_command_mode` in configure-rfd.py (lines 92–107):
`time.sleep(1)`, `ser.write(b"+++")`, `time.sleep(1)`, `ser.readlines()`.
No probe command is written inside this routine at all. -/
def enter_command_mode_trace : List TEv :=
  [TEv.sleep 10, TEv.write ("+++".toList), TEv.sleep 10, TEv.readAll]

/-- The entry portion of `set_netid` in congigure-rfd.py (lines 29–35), up
to and including the first command written after the escape:
`time.sleep(4)`, `ser.write(b"+++")`, `time.sleep(4)`, then
`send_command(ser, "ATS3?")` writes `ATS3?\r\n`, sleeps 0.5 s and reads.
Later requests only come after this first one. -/
def set_netid_entry_trace : List TEv :=
  [TEv.sleep 40, TEv.write ("+++".toList), TEv.sleep 40,
   TEv.write (("ATS3?" ++ "\r\n").toList), TEv.sleep 5, TEv.readAll]

/-- C5: in both entry variants the escape is the 3-byte literal `+++` with
no line terminator (no CR or LF byte), written with at least 1 s (10 tenths)
of write silence on each side: in configure-rfd.py it is the only write of
the whole routine, at 1 s, with the routine extending 1 s beyond it; in
congigure-rfd.py it is written at 4 s and the first (probe) command follows
only at 8 s. -/
theorem c5_escape_guard_bands :
    timedWrites 0 enter_command_mode_trace = [(10, "+++".toList)] ∧
    timedWrites 0 set_netid_entry_trace =
      [(40, "+++".toList), (80, ("ATS3?" ++ "\r\n").toList)] ∧
    "+++".toList = ['+', '+', '+'] ∧
    '\r' ∉ "+++".toList ∧ '\n' ∉ "+++".toList ∧
    quietAround (timedWrites 0 enter_command_mode_trace) 10 10 = true ∧
    quietAround (timedWrites 0 set_netid_entry_trace) 40 10 = true := by
  refine ⟨by decide, by decide, by decide, by decide, by decide, by decide,
    by decide⟩

